import Mathlib

set_option maxRecDepth 8000

/-!
Shallow embedding of the XDP DHCP packet classifier
(`src/maasagent/internal/dhcp/xdp/xdp.c`) and of the privilege-dropping
shim (`snap-data/stub_initgroups/stub_initgroups.c`).

A frame is a list of bytes (`List Nat`, each read taken mod 256, as a `u8`
load).  The classifier `xdp_prog_func` is modelled as a pure function from
the frame, the ingress interface index, and the result of the up-front
ring-buffer reservation (`none` = reservation failed, `some slot` = the
reserved slot with its prior, not-necessarily-zero content) to the verdict
together with the trace of queue operations the invocation performs.
-/

/-- `UDP_PROTO` from the source: IP protocol number of UDP. -/
def UDP_PROTO : Nat := 0x11

/-- `ETH_PROTO_IP` from the source: ethertype of IPv4. -/
def ETH_PROTO_IP : Nat := 0x0800

/-- `ETH_PROTO_IPV6` from the source: ethertype of IPv6. -/
def ETH_PROTO_IPV6 : Nat := 0x86DD

/-- `DHCP_PORT` from the source: UDP destination port of a DHCP server. -/
def DHCP_PORT : Nat := 67

/-- `MAX_DHCP_PKT_SIZE` from the source: maximum captured payload size. -/
def MAX_DHCP_PKT_SIZE : Nat := 1984

/-- A `u8` load from the frame at offset `i` (reads past the end give 0;
all bounds checks of the source are modelled explicitly, so such a read
never decides anything). -/
def read8 (frame : List Nat) (i : Nat) : Nat := frame.getD i 0 % 256

/-- A 16-bit big-endian (network order) read.  The source compares raw
16-bit loads against `bpf_htons` of a constant and converts ports with
`bpf_htons`; on either endianness this equals the big-endian value of the
two bytes, which is what this function returns. -/
def read16be (frame : List Nat) (i : Nat) : Nat :=
  read8 frame i * 256 + read8 frame (i + 1)

/-- The `n` bytes of the frame starting at offset `off` (models a struct
member copy such as `data->src_ip4 = ip->saddr`). -/
def slice8 (frame : List Nat) (off n : Nat) : List Nat :=
  (List.range n).map fun k => read8 frame (off + k)

/-- `struct dhcp_data` from the source.  `src_ip4` and `src_ip6` are kept
as their raw bytes (4 and 16), exactly as the struct assignment copies
them; `dhcp_pkt` is the full `MAX_DHCP_PKT_SIZE` byte array of the slot. -/
structure dhcp_data where
  iface_idx : Nat
  src_mac : List Nat
  src_port : Nat
  src_ip4 : List Nat
  src_ip6 : List Nat
  dhcp_pkt : List Nat
deriving DecidableEq, Repr, Inhabited

/-- Recursion core of the copy loop of `parse_dhcp_pkt`.  `n` is the
number of payload bytes left before `payload_end`, i.e. `len - (base + i)`,
so the loop guard `dhcp_pkt + i < payload_end` is exactly `0 < n`, and `n`
drops by one every time `i` rises by one.  Returns (success, final
contents of the `dhcp_pkt` array, number of times the loop body was
entered). -/
def copyLoopGo (frame : List Nat) (base : Nat) :
    Nat → Nat → List Nat → Bool × List Nat × Nat
  | 0, _, arr => (true, arr, 0)
  | n + 1, i, arr =>
    if MAX_DHCP_PKT_SIZE ≤ i then
      (false, arr, 1)
    else
      let r := copyLoopGo frame base n (i + 1) (arr.set i (read8 frame (base + i)))
      (r.1, r.2.1, r.2.2 + 1)

/-- The bounded copy loop of `parse_dhcp_pkt`
(`for (int i = 0; dhcp_pkt + i < payload_end; i++) { if (i >= MAX_DHCP_PKT_SIZE) return 0; data->dhcp_pkt[i] = ...; }`).
`base` is the offset of the payload in the frame and `len` the frame
length; the remaining-byte count passed to `copyLoopGo` makes the
recursion structural. -/
def copyLoopAux (frame : List Nat) (base len i : Nat) (arr : List Nat) :
    Bool × List Nat × Nat :=
  copyLoopGo frame base (len - (base + i)) i arr

/-- `parse_dhcp_pkt` from the source, as explicit state passing on the
reserved slot `d0`.  Offsets: ethernet header 14 bytes (`h_source` at 6,
`h_proto` at 12), IPv4 header 20 bytes (`protocol` at byte 23, `saddr` at
26..30), IPv6 header 40 bytes (`nexthdr` at byte 20, `saddr` at 22..38),
UDP header 8 bytes (`source`/`dest` at 34/36 for IPv4, 54/56 for IPv6);
payload begins at 42 (IPv4) or 62 (IPv6).  Each `(p + 1) > payload_end`
bounds check of the source becomes the corresponding length test. -/
def parse_dhcp_pkt (frame : List Nat) (ifindex : Nat) (d0 : dhcp_data) :
    Bool × dhcp_data :=
  let len := frame.length
  let d := { d0 with iface_idx := ifindex % 2 ^ 32 }
  if len < 14 then (false, d)
  else if read16be frame 12 = ETH_PROTO_IP then
    if len < 34 then (false, d)
    else if read8 frame 23 ≠ UDP_PROTO then (false, d)
    else if len < 42 then (false, d)
    else if read16be frame 36 ≠ DHCP_PORT then (false, d)
    else if len < 43 then (false, d)
    else
      let d := { d with
        src_mac := slice8 frame 6 6
        src_ip4 := slice8 frame 26 4
        src_port := read16be frame 34 }
      let r := copyLoopAux frame 42 len 0 d.dhcp_pkt
      (r.1, { d with dhcp_pkt := r.2.1 })
  else if read16be frame 12 = ETH_PROTO_IPV6 then
    if len < 54 then (false, d)
    else if read8 frame 20 ≠ UDP_PROTO then (false, d)
    else if len < 62 then (false, d)
    else if read16be frame 56 ≠ DHCP_PORT then (false, d)
    else if len < 63 then (false, d)
    else
      let d := { d with
        src_mac := slice8 frame 6 6
        src_ip6 := slice8 frame 22 16
        src_port := read16be frame 54 }
      let r := copyLoopAux frame 62 len 0 d.dhcp_pkt
      (r.1, { d with dhcp_pkt := r.2.1 })
  else (false, d)

/-- The two XDP verdicts used by the program: `Continue` is `XDP_PASS`,
`CaptureAndDrop` is `XDP_DROP`. -/
inductive Verdict where
  | Continue
  | CaptureAndDrop
deriving DecidableEq, Repr

/-- One operation on the capture queue (`dhcp_queue` ring buffer):
`bpf_ringbuf_reserve` succeeding or failing, `bpf_ringbuf_submit` of a
record, `bpf_ringbuf_discard`. -/
inductive QueueEvent where
  | reserve_ok
  | reserve_fail
  | submit (d : dhcp_data)
  | discard
deriving DecidableEq, Repr

/-- `xdp_prog_func` from the source.  The result of the up-front
`bpf_ringbuf_reserve` is the parameter `reserved` (`none`: reservation
failed; `some slot`: the slot with its prior content).  Returns the
verdict and the trace of queue operations of this invocation. -/
def xdp_prog_func (frame : List Nat) (ifindex : Nat)
    (reserved : Option dhcp_data) : Verdict × List QueueEvent :=
  match reserved with
  | none => (Verdict.Continue, [QueueEvent.reserve_fail])
  | some slot =>
    let r := parse_dhcp_pkt frame ifindex slot
    if r.1 then
      (Verdict.CaptureAndDrop, [QueueEvent.reserve_ok, QueueEvent.submit r.2])
    else
      (Verdict.Continue, [QueueEvent.reserve_ok, QueueEvent.discard])

/-- The records committed (submitted) in a trace of queue operations. -/
def committedRecords (evs : List QueueEvent) : List dhcp_data :=
  evs.filterMap fun e =>
    match e with
    | QueueEvent.submit d => some d
    | _ => none

/-- Whether an event is a successful reservation. -/
def isReserveOk : QueueEvent → Bool
  | QueueEvent.reserve_ok => true
  | _ => false

/-- Whether an event is a submit. -/
def isSubmit : QueueEvent → Bool
  | QueueEvent.submit _ => true
  | _ => false

/-- Whether an event is a discard. -/
def isDiscard : QueueEvent → Bool
  | QueueEvent.discard => true
  | _ => false

/-- Net change of the number of slots held by the producer over a trace:
reservations acquire a slot, discards release it (submits hand the slot to
the consumer, so a trace with a submit changes occupancy by design; a
trace with no submit and delta 0 leaves the queue exactly as it was). -/
def occupancyDelta (evs : List QueueEvent) : Int :=
  (evs.countP isReserveOk : Int) - (evs.countP isDiscard : Int)
    - (evs.countP isSubmit : Int)

/-! ### Lemmas about the copy loop -/

lemma getD_set_eq_of_lt' (l : List Nat) (i a : Nat) (h : i < l.length) :
    (l.set i a).getD i 0 = a := by
  simp [List.getD_eq_getElem?_getD, List.getElem?_set_eq_of_lt a h]

lemma getD_set_ne' (l : List Nat) (i j a : Nat) (h : i ≠ j) :
    (l.set i a).getD j 0 = l.getD j 0 := by
  simp [List.getD_eq_getElem?_getD, List.getElem?_set_ne h]

lemma copyLoopGo_ok (frame : List Nat) (base : Nat) :
    ∀ n i arr, i + n ≤ MAX_DHCP_PKT_SIZE →
      (copyLoopGo frame base n i arr).1 = true ∧
      (copyLoopGo frame base n i arr).2.1.length = arr.length ∧
      (∀ j, i ≤ j → j < i + n → j < arr.length →
        (copyLoopGo frame base n i arr).2.1.getD j 0 = read8 frame (base + j)) ∧
      (∀ j, j < i ∨ i + n ≤ j →
        (copyLoopGo frame base n i arr).2.1.getD j 0 = arr.getD j 0) := by
  intro n
  induction n with
  | zero =>
    intro i arr _
    exact ⟨rfl, rfl, fun j h1 h2 _ => by omega, fun j _ => rfl⟩
  | succ n ih =>
    intro i arr h
    simp only [copyLoopGo]
    rw [if_neg (by omega)]
    obtain ⟨h1, h2, h3, h4⟩ :=
      ih (i + 1) (arr.set i (read8 frame (base + i))) (by omega)
    refine ⟨h1, by simpa using h2, ?_, ?_⟩
    · intro j hij hjn hjarr
      rcases Nat.eq_or_lt_of_le hij with hij | hij
      · subst hij
        rw [h4 i (Or.inl (Nat.lt_succ_self i))]
        exact getD_set_eq_of_lt' arr i _ hjarr
      · exact h3 j hij (by omega) (by simpa using hjarr)
    · intro j hj
      rw [h4 j (by omega)]
      exact getD_set_ne' arr i j _ (by omega)

lemma copyLoopAux_ok (frame : List Nat) (base len : Nat)
    (hle : len - base ≤ MAX_DHCP_PKT_SIZE) (arr : List Nat) :
    (copyLoopAux frame base len 0 arr).1 = true ∧
      (copyLoopAux frame base len 0 arr).2.1.length = arr.length ∧
      (∀ j, base + j < len → j < arr.length →
        (copyLoopAux frame base len 0 arr).2.1.getD j 0 = read8 frame (base + j)) ∧
      (∀ j, len ≤ base + j →
        (copyLoopAux frame base len 0 arr).2.1.getD j 0 = arr.getD j 0) := by
  simp only [copyLoopAux]
  obtain ⟨h1, h2, h3, h4⟩ :=
    copyLoopGo_ok frame base (len - (base + 0)) 0 arr (by omega)
  refine ⟨h1, h2, ?_, ?_⟩
  · intro j hjlen hjarr
    exact h3 j (Nat.zero_le j) (by omega) hjarr
  · intro j hj
    exact h4 j (by omega)

lemma copyLoopGo_fail (frame : List Nat) (base : Nat) :
    ∀ k i n arr, i + k = MAX_DHCP_PKT_SIZE → MAX_DHCP_PKT_SIZE < i + n →
      (copyLoopGo frame base n i arr).1 = false := by
  intro k
  induction k with
  | zero =>
    intro i n arr hik hn
    obtain ⟨m, rfl⟩ : ∃ m, n = m + 1 := ⟨n - 1, by omega⟩
    simp only [copyLoopGo]
    rw [if_pos (by omega)]
  | succ k ih =>
    intro i n arr hik hn
    obtain ⟨m, rfl⟩ : ∃ m, n = m + 1 := ⟨n - 1, by omega⟩
    simp only [copyLoopGo]
    rw [if_neg (by omega)]
    exact ih (i + 1) m _ (by omega) (by omega)

lemma copyLoopAux_fail (frame : List Nat) (base len : Nat) (arr : List Nat)
    (hmax : MAX_DHCP_PKT_SIZE < len - base) :
    (copyLoopAux frame base len 0 arr).1 = false := by
  simp only [copyLoopAux]
  exact copyLoopGo_fail frame base MAX_DHCP_PKT_SIZE 0 _ arr (by omega) (by omega)

lemma copyLoopGo_iters (frame : List Nat) (base : Nat) :
    ∀ n i arr, i ≤ MAX_DHCP_PKT_SIZE →
      (copyLoopGo frame base n i arr).2.2 ≤ MAX_DHCP_PKT_SIZE + 1 - i := by
  intro n
  induction n with
  | zero =>
    intro i arr h
    show (0 : Nat) ≤ MAX_DHCP_PKT_SIZE + 1 - i
    omega
  | succ n ih =>
    intro i arr h
    simp only [copyLoopGo]
    by_cases hq : MAX_DHCP_PKT_SIZE ≤ i
    · rw [if_pos hq]
      show (1 : Nat) ≤ MAX_DHCP_PKT_SIZE + 1 - i
      omega
    · rw [if_neg hq]
      have hrec := ih (i + 1) (arr.set i (read8 frame (base + i))) (by omega)
      show (copyLoopGo frame base n (i + 1)
          (arr.set i (read8 frame (base + i)))).2.2 + 1 ≤
        MAX_DHCP_PKT_SIZE + 1 - i
      omega


lemma parse_v4_ok (frame : List Nat) (ifindex : Nat) (d0 : dhcp_data)
    (hEth : read16be frame 12 = ETH_PROTO_IP)
    (hProto : read8 frame 23 = UDP_PROTO)
    (hPort : read16be frame 36 = DHCP_PORT)
    (hLo : 43 ≤ frame.length)
    (hHi : frame.length ≤ 42 + MAX_DHCP_PKT_SIZE) :
    ∃ arr,
      parse_dhcp_pkt frame ifindex d0 =
        (true,
          { iface_idx := ifindex % 2 ^ 32
            src_mac := slice8 frame 6 6
            src_port := read16be frame 34
            src_ip4 := slice8 frame 26 4
            src_ip6 := d0.src_ip6
            dhcp_pkt := arr }) ∧
      arr.length = d0.dhcp_pkt.length ∧
      (∀ j, 42 + j < frame.length → j < d0.dhcp_pkt.length →
        arr.getD j 0 = read8 frame (42 + j)) := by
  obtain ⟨hok, hlen, hread, -⟩ :=
    copyLoopAux_ok frame 42 frame.length
      (by simp only [MAX_DHCP_PKT_SIZE] at hHi ⊢; omega) d0.dhcp_pkt
  refine ⟨(copyLoopAux frame 42 frame.length 0 d0.dhcp_pkt).2.1, ?_, hlen, ?_⟩
  · simp only [parse_dhcp_pkt]
    rw [if_neg (by omega), if_pos hEth, if_neg (by omega),
      if_neg (not_not_intro hProto), if_neg (by omega),
      if_neg (not_not_intro hPort), if_neg (by omega)]
    rw [Prod.mk.injEq]
    exact ⟨hok, rfl⟩
  · intro j hj hjl
    exact hread j hj hjl

lemma parse_v6_ok (frame : List Nat) (ifindex : Nat) (d0 : dhcp_data)
    (hEth : read16be frame 12 = ETH_PROTO_IPV6)
    (hProto : read8 frame 20 = UDP_PROTO)
    (hPort : read16be frame 56 = DHCP_PORT)
    (hLo : 63 ≤ frame.length)
    (hHi : frame.length ≤ 62 + MAX_DHCP_PKT_SIZE) :
    ∃ arr,
      parse_dhcp_pkt frame ifindex d0 =
        (true,
          { iface_idx := ifindex % 2 ^ 32
            src_mac := slice8 frame 6 6
            src_port := read16be frame 54
            src_ip4 := d0.src_ip4
            src_ip6 := slice8 frame 22 16
            dhcp_pkt := arr }) ∧
      arr.length = d0.dhcp_pkt.length ∧
      (∀ j, 62 + j < frame.length → j < d0.dhcp_pkt.length →
        arr.getD j 0 = read8 frame (62 + j)) := by
  have hne : read16be frame 12 ≠ ETH_PROTO_IP := by
    rw [hEth]; decide
  obtain ⟨hok, hlen, hread, -⟩ :=
    copyLoopAux_ok frame 62 frame.length
      (by simp only [MAX_DHCP_PKT_SIZE] at hHi ⊢; omega) d0.dhcp_pkt
  refine ⟨(copyLoopAux frame 62 frame.length 0 d0.dhcp_pkt).2.1, ?_, hlen, ?_⟩
  · simp only [parse_dhcp_pkt]
    rw [if_neg (by omega), if_neg hne, if_pos hEth, if_neg (by omega),
      if_neg (not_not_intro hProto), if_neg (by omega),
      if_neg (not_not_intro hPort), if_neg (by omega)]
    rw [Prod.mk.injEq]
    exact ⟨hok, rfl⟩
  · intro j hj hjl
    exact hread j hj hjl

lemma parse_v4_fail (frame : List Nat) (ifindex : Nat) (d0 : dhcp_data)
    (hEth : read16be frame 12 = ETH_PROTO_IP)
    (h : frame.length < 43 ∨ 42 + MAX_DHCP_PKT_SIZE < frame.length ∨
      read8 frame 23 ≠ UDP_PROTO ∨ read16be frame 36 ≠ DHCP_PORT) :
    (parse_dhcp_pkt frame ifindex d0).1 = false := by
  simp only [parse_dhcp_pkt]
  by_cases h14 : frame.length < 14
  · rw [if_pos h14]
  rw [if_neg h14, if_pos hEth]
  by_cases h34 : frame.length < 34
  · rw [if_pos h34]
  rw [if_neg h34]
  by_cases hpr : read8 frame 23 ≠ UDP_PROTO
  · rw [if_pos hpr]
  rw [if_neg hpr]
  by_cases h42 : frame.length < 42
  · rw [if_pos h42]
  rw [if_neg h42]
  by_cases hpt : read16be frame 36 ≠ DHCP_PORT
  · rw [if_pos hpt]
  rw [if_neg hpt]
  by_cases h43 : frame.length < 43
  · rw [if_pos h43]
  rw [if_neg h43]
  have hbig : 42 + MAX_DHCP_PKT_SIZE < frame.length := by
    rcases h with h | h | h | h
    · omega
    · exact h
    · exact absurd (not_not.mp hpr) h
    · exact absurd (not_not.mp hpt) h
  exact copyLoopAux_fail frame 42 frame.length _ (by omega)

lemma parse_v6_fail (frame : List Nat) (ifindex : Nat) (d0 : dhcp_data)
    (hEth : read16be frame 12 = ETH_PROTO_IPV6)
    (h : frame.length < 63 ∨ 62 + MAX_DHCP_PKT_SIZE < frame.length ∨
      read8 frame 20 ≠ UDP_PROTO ∨ read16be frame 56 ≠ DHCP_PORT) :
    (parse_dhcp_pkt frame ifindex d0).1 = false := by
  have hne : read16be frame 12 ≠ ETH_PROTO_IP := by
    rw [hEth]; decide
  simp only [parse_dhcp_pkt]
  by_cases h14 : frame.length < 14
  · rw [if_pos h14]
  rw [if_neg h14, if_neg hne, if_pos hEth]
  by_cases h54 : frame.length < 54
  · rw [if_pos h54]
  rw [if_neg h54]
  by_cases hpr : read8 frame 20 ≠ UDP_PROTO
  · rw [if_pos hpr]
  rw [if_neg hpr]
  by_cases h62 : frame.length < 62
  · rw [if_pos h62]
  rw [if_neg h62]
  by_cases hpt : read16be frame 56 ≠ DHCP_PORT
  · rw [if_pos hpt]
  rw [if_neg hpt]
  by_cases h63 : frame.length < 63
  · rw [if_pos h63]
  rw [if_neg h63]
  have hbig : 62 + MAX_DHCP_PKT_SIZE < frame.length := by
    rcases h with h | h | h | h
    · omega
    · exact h
    · exact absurd (not_not.mp hpr) h
    · exact absurd (not_not.mp hpt) h
  exact copyLoopAux_fail frame 62 frame.length _ (by omega)

lemma parse_other_fail (frame : List Nat) (ifindex : Nat) (d0 : dhcp_data)
    (h4 : read16be frame 12 ≠ ETH_PROTO_IP)
    (h6 : read16be frame 12 ≠ ETH_PROTO_IPV6) :
    (parse_dhcp_pkt frame ifindex d0).1 = false := by
  simp only [parse_dhcp_pkt]
  by_cases h14 : frame.length < 14
  · rw [if_pos h14]
  · rw [if_neg h14, if_neg h4, if_neg h6]

lemma parse_short_fail (frame : List Nat) (ifindex : Nat) (d0 : dhcp_data)
    (h14 : frame.length < 14) :
    (parse_dhcp_pkt frame ifindex d0).1 = false := by
  simp only [parse_dhcp_pkt]
  rw [if_pos h14]

/-! ### Lemmas about `xdp_prog_func` and the queue trace -/

lemma xdp_discard_of_parse_fail (frame : List Nat) (ifindex : Nat)
    (slot : dhcp_data) (h : (parse_dhcp_pkt frame ifindex slot).1 = false) :
    xdp_prog_func frame ifindex (some slot) =
      (Verdict.Continue, [QueueEvent.reserve_ok, QueueEvent.discard]) := by
  simp [xdp_prog_func, h]

lemma xdp_submit_of_parse_ok (frame : List Nat) (ifindex : Nat)
    (slot d : dhcp_data) (h : parse_dhcp_pkt frame ifindex slot = (true, d)) :
    xdp_prog_func frame ifindex (some slot) =
      (Verdict.CaptureAndDrop,
        [QueueEvent.reserve_ok, QueueEvent.submit d]) := by
  simp [xdp_prog_func, h]

lemma committedRecords_reserve_fail :
    committedRecords [QueueEvent.reserve_fail] = [] := rfl

lemma committedRecords_discard :
    committedRecords [QueueEvent.reserve_ok, QueueEvent.discard] = [] := rfl

lemma committedRecords_submit (d : dhcp_data) :
    committedRecords [QueueEvent.reserve_ok, QueueEvent.submit d] = [d] := rfl

lemma occupancyDelta_reserve_fail :
    occupancyDelta [QueueEvent.reserve_fail] = 0 := rfl

lemma occupancyDelta_discard :
    occupancyDelta [QueueEvent.reserve_ok, QueueEvent.discard] = 0 := rfl

/-! ### Concrete frames and slots used by witnesses and counterexamples -/

/-- A reserved slot whose prior content is all zero. -/
def zeroSlot : dhcp_data :=
  { iface_idx := 0, src_mac := List.replicate 6 0, src_port := 0
    src_ip4 := List.replicate 4 0, src_ip6 := List.replicate 16 0
    dhcp_pkt := List.replicate MAX_DHCP_PKT_SIZE 0 }

/-- A reserved slot whose prior content has a non-zero `src_ip6` (ring
buffer memory is reused, so a reserved slot can hold stale bytes). -/
def dirtySlot : dhcp_data :=
  { zeroSlot with src_ip6 := List.replicate 16 255 }

/-- A 14-byte frame whose ethertype 0x1234 is neither IPv4 nor IPv6. -/
def c1Frame : List Nat := [0, 0, 0, 0, 0, 0, 0, 0, 0, 0, 0, 0, 18, 52]

/-- The 42 header bytes of a well-formed IPv4/UDP frame to port 67:
ethernet (dst mac, src mac aa:bb:cc:dd:ee:ff, ethertype 0x0800), IPv4
(protocol 17, source 192.168.1.50), UDP (source port 68, dest port 67). -/
def v4Hdr : List Nat :=
  [1, 2, 3, 4, 5, 6, 170, 187, 204, 221, 238, 255, 8, 0,
   69, 0, 0, 29, 0, 0, 0, 0, 64, 17, 0, 0, 192, 168, 1, 50, 192, 168, 1, 1,
   0, 68, 0, 67, 0, 9, 0, 0]

/-- A 43-byte well-formed IPv4 DHCP frame with the single payload byte 99. -/
def v4Frame : List Nat := v4Hdr ++ [99]

/-- A well-formed IPv4 DHCP frame whose UDP payload is
`MAX_DHCP_PKT_SIZE + 1` bytes, one byte over the capture limit. -/
def bigFrame : List Nat := v4Hdr ++ List.replicate (MAX_DHCP_PKT_SIZE + 1) 99

/-! ### Claims -/

/-- Claim C6: for every input frame the classifier terminates, and each
payload copy loop executes at most `MAX_DHCP_PKT_SIZE + 1` iterations: a
static bound, independent of the frame content and of the frame length
(the model is a total function, so termination is by construction). -/
theorem claim_C6_copy_loop_bounded (frame : List Nat) (base len : Nat)
    (arr : List Nat) :
    (copyLoopAux frame base len 0 arr).2.2 ≤ MAX_DHCP_PKT_SIZE + 1 := by
  simp only [copyLoopAux]
  have h := copyLoopGo_iters frame base (len - (base + 0)) 0 arr (by omega)
  omega

/-- Claim C8: every invocation performs exactly one reservation attempt;
a successful reservation is released exactly once, by one submit or one
discard, before the handler returns: the trace is `[reserve_fail]`,
`[reserve_ok, discard]`, or `[reserve_ok, submit d]`. -/
theorem claim_C8_reservation_balance (frame : List Nat) (ifindex : Nat)
    (reserved : Option dhcp_data) :
    ((xdp_prog_func frame ifindex reserved).2.countP isReserveOk ≤ 1) ∧
    ((xdp_prog_func frame ifindex reserved).2.countP isReserveOk
      = (xdp_prog_func frame ifindex reserved).2.countP isSubmit
        + (xdp_prog_func frame ifindex reserved).2.countP isDiscard) ∧
    ((xdp_prog_func frame ifindex reserved).2 = [QueueEvent.reserve_fail] ∨
      (xdp_prog_func frame ifindex reserved).2
        = [QueueEvent.reserve_ok, QueueEvent.discard] ∨
      ∃ d, (xdp_prog_func frame ifindex reserved).2
        = [QueueEvent.reserve_ok, QueueEvent.submit d]) := by
  cases reserved with
  | none =>
    have hx : xdp_prog_func frame ifindex none
        = (Verdict.Continue, [QueueEvent.reserve_fail]) := rfl
    rw [hx]
    exact ⟨by decide, by decide, Or.inl rfl⟩
  | some slot =>
    cases h : (parse_dhcp_pkt frame ifindex slot).1 with
    | false =>
      rw [xdp_discard_of_parse_fail frame ifindex slot h]
      exact ⟨by decide, by decide, Or.inr (Or.inl rfl)⟩
    | true =>
      have hx : xdp_prog_func frame ifindex (some slot)
          = (Verdict.CaptureAndDrop,
            [QueueEvent.reserve_ok,
              QueueEvent.submit (parse_dhcp_pkt frame ifindex slot).2]) := by
        simp [xdp_prog_func, h]
      rw [hx]
      refine ⟨?_, ?_, Or.inr (Or.inr ⟨_, rfl⟩)⟩
      · simp [List.countP_cons, isReserveOk, isSubmit, isDiscard]
      · simp [List.countP_cons, isReserveOk, isSubmit, isDiscard]

/-- Claim C1 counterexample: for a 14-byte frame with ethertype 0x1234
(neither IPv4 nor IPv6) and a successful reservation, the verdict is
`Continue` but the capture queue IS touched: the handler reserves a slot
before parsing and discards it, so the trace is not empty. -/
theorem claim_C1_counterexample :
    (xdp_prog_func c1Frame 0 (some zeroSlot)).1 = Verdict.Continue ∧
    (xdp_prog_func c1Frame 0 (some zeroSlot)).2
      = [QueueEvent.reserve_ok, QueueEvent.discard] ∧
    (xdp_prog_func c1Frame 0 (some zeroSlot)).2 ≠ [] :=
  ⟨by decide, by decide, by decide⟩

/-- Claim C1 (amended): for every frame whose ethertype is neither IPv4
nor IPv6, the verdict is `Continue` and no record is committed; the queue
is touched by the up-front reservation, which is discarded (net occupancy
unchanged), or by a failed reservation attempt. -/
theorem claim_C1_amended (frame : List Nat) (ifindex : Nat)
    (reserved : Option dhcp_data)
    (h4 : read16be frame 12 ≠ ETH_PROTO_IP)
    (h6 : read16be frame 12 ≠ ETH_PROTO_IPV6) :
    (xdp_prog_func frame ifindex reserved).1 = Verdict.Continue ∧
    committedRecords (xdp_prog_func frame ifindex reserved).2 = [] ∧
    occupancyDelta (xdp_prog_func frame ifindex reserved).2 = 0 ∧
    (∀ slot, reserved = some slot →
      (xdp_prog_func frame ifindex reserved).2
        = [QueueEvent.reserve_ok, QueueEvent.discard]) := by
  cases reserved with
  | none =>
    exact ⟨rfl, rfl, rfl, fun slot h => by cases h⟩
  | some slot =>
    rw [xdp_discard_of_parse_fail frame ifindex slot
      (parse_other_fail frame ifindex slot h4 h6)]
    exact ⟨rfl, rfl, rfl, fun _ _ => rfl⟩

/-- Witness for the amended claim C1, at the concrete 0x1234 frame. -/
theorem claim_C1_amended_witness :
    read16be c1Frame 12 ≠ ETH_PROTO_IP ∧
    read16be c1Frame 12 ≠ ETH_PROTO_IPV6 ∧
    ((xdp_prog_func c1Frame 9 (some zeroSlot)).1 = Verdict.Continue ∧
      committedRecords (xdp_prog_func c1Frame 9 (some zeroSlot)).2 = [] ∧
      occupancyDelta (xdp_prog_func c1Frame 9 (some zeroSlot)).2 = 0 ∧
      (∀ slot, (some zeroSlot : Option dhcp_data) = some slot →
        (xdp_prog_func c1Frame 9 (some zeroSlot)).2
          = [QueueEvent.reserve_ok, QueueEvent.discard])) :=
  ⟨by decide, by decide,
    claim_C1_amended c1Frame 9 (some zeroSlot) (by decide) (by decide)⟩

/-- Claim C4: a well-formed IPv4 DHCP-port frame whose UDP payload
exceeds `MAX_DHCP_PKT_SIZE` by at least one byte gets verdict `Continue`,
no record is committed, and the in-progress reservation is discarded
(net occupancy unchanged) rather than committed truncated. -/
theorem claim_C4_oversize_discarded (frame : List Nat) (ifindex : Nat)
    (slot : dhcp_data)
    (hEth : read16be frame 12 = ETH_PROTO_IP)
    (hProto : read8 frame 23 = UDP_PROTO)
    (hPort : read16be frame 36 = DHCP_PORT)
    (hBig : 42 + MAX_DHCP_PKT_SIZE < frame.length) :
    xdp_prog_func frame ifindex (some slot)
      = (Verdict.Continue, [QueueEvent.reserve_ok, QueueEvent.discard]) ∧
    committedRecords (xdp_prog_func frame ifindex (some slot)).2 = [] ∧
    occupancyDelta (xdp_prog_func frame ifindex (some slot)).2 = 0 := by
  rw [xdp_discard_of_parse_fail frame ifindex slot
    (parse_v4_fail frame ifindex slot hEth (Or.inr (Or.inl hBig)))]
  exact ⟨rfl, rfl, rfl⟩

/-- Witness for claim C4, at a frame with a 1985-byte payload. -/
theorem claim_C4_oversize_discarded_witness :
    read16be bigFrame 12 = ETH_PROTO_IP ∧
    read8 bigFrame 23 = UDP_PROTO ∧
    read16be bigFrame 36 = DHCP_PORT ∧
    42 + MAX_DHCP_PKT_SIZE < bigFrame.length ∧
    (xdp_prog_func bigFrame 3 (some zeroSlot)
      = (Verdict.Continue, [QueueEvent.reserve_ok, QueueEvent.discard]) ∧
    committedRecords (xdp_prog_func bigFrame 3 (some zeroSlot)).2 = [] ∧
    occupancyDelta (xdp_prog_func bigFrame 3 (some zeroSlot)).2 = 0) :=
  ⟨by decide, by decide, by decide,
    by simp [bigFrame, v4Hdr, MAX_DHCP_PKT_SIZE],
    claim_C4_oversize_discarded bigFrame 3 zeroSlot (by decide) (by decide)
      (by decide) (by simp [bigFrame, v4Hdr, MAX_DHCP_PKT_SIZE])⟩

/-- The failure taxonomy of the spec, as conditions on the input: queue
exhaustion (reservation failed), a truncated ethernet header, or — under
the IPv4 / IPv6 ethertype — a truncated or empty packet, an oversized
payload, a wrong transport protocol, or a wrong destination port. -/
def FailureInput (frame : List Nat) (reserved : Option dhcp_data) : Prop :=
  reserved = none ∨
  frame.length < 14 ∨
  (read16be frame 12 = ETH_PROTO_IP ∧
    (frame.length < 43 ∨ 42 + MAX_DHCP_PKT_SIZE < frame.length ∨
      read8 frame 23 ≠ UDP_PROTO ∨ read16be frame 36 ≠ DHCP_PORT)) ∨
  (read16be frame 12 = ETH_PROTO_IPV6 ∧
    (frame.length < 63 ∨ 62 + MAX_DHCP_PKT_SIZE < frame.length ∨
      read8 frame 20 ≠ UDP_PROTO ∨ read16be frame 56 ≠ DHCP_PORT))

/-- Claim C5: every failure mode — truncated headers at any parse stage,
wrong transport protocol, wrong destination port, oversized payload, and
queue exhaustion — yields verdict `Continue`, no committed record, and
unchanged net queue occupancy; the only signal is the verdict. -/
theorem claim_C5_fail_open (frame : List Nat) (ifindex : Nat)
    (reserved : Option dhcp_data) (h : FailureInput frame reserved) :
    (xdp_prog_func frame ifindex reserved).1 = Verdict.Continue ∧
    committedRecords (xdp_prog_func frame ifindex reserved).2 = [] ∧
    occupancyDelta (xdp_prog_func frame ifindex reserved).2 = 0 := by
  rcases h with h | h | ⟨hEth, h⟩ | ⟨hEth, h⟩
  · subst h
    exact ⟨rfl, rfl, rfl⟩
  · cases reserved with
    | none => exact ⟨rfl, rfl, rfl⟩
    | some slot =>
      rw [xdp_discard_of_parse_fail frame ifindex slot
        (parse_short_fail frame ifindex slot h)]
      exact ⟨rfl, rfl, rfl⟩
  · cases reserved with
    | none => exact ⟨rfl, rfl, rfl⟩
    | some slot =>
      rw [xdp_discard_of_parse_fail frame ifindex slot
        (parse_v4_fail frame ifindex slot hEth h)]
      exact ⟨rfl, rfl, rfl⟩
  · cases reserved with
    | none => exact ⟨rfl, rfl, rfl⟩
    | some slot =>
      rw [xdp_discard_of_parse_fail frame ifindex slot
        (parse_v6_fail frame ifindex slot hEth h)]
      exact ⟨rfl, rfl, rfl⟩

/-- Witness for claim C5: a well-formed DHCP frame under queue
exhaustion (reservation failed) passes through with no commit. -/
theorem claim_C5_fail_open_witness :
    FailureInput v4Frame none ∧
    ((xdp_prog_func v4Frame 2 none).1 = Verdict.Continue ∧
      committedRecords (xdp_prog_func v4Frame 2 none).2 = [] ∧
      occupancyDelta (xdp_prog_func v4Frame 2 none).2 = 0) :=
  ⟨Or.inl rfl, claim_C5_fail_open v4Frame 2 none (Or.inl rfl)⟩

/-- The overriding `setgroups` of the shim
(`stub_initgroups.c`): looks up the next `setgroups` symbol (modelled as
the function parameter `orig`) and calls it with size 0 and a NULL list,
ignoring its own arguments. -/
def setgroups (orig : Nat → Option (List Nat) → Int) (size : Nat)
    (list : Option (List Nat)) : Int :=
  orig 0 none

/-- The overriding `initgroups` of the shim: calls `setgroups(0, NULL)`,
ignoring `user` and `group`. -/
def initgroups (orig : Nat → Option (List Nat) → Int) (user : List Nat)
    (group : Nat) : Int :=
  setgroups orig 0 none

/-- Claim C10: the shim's `setgroups` and `initgroups` ignore all their
arguments and both return the underlying `setgroups` applied to
`(0, NULL)`; the result is independent of size, list, user and group. -/
theorem claim_C10_stub_ignores_arguments
    (orig : Nat → Option (List Nat) → Int) (size size' : Nat)
    (list list' : Option (List Nat)) (user user' : List Nat)
    (group group' : Nat) :
    setgroups orig size list = orig 0 none ∧
    initgroups orig user group = orig 0 none ∧
    setgroups orig size list = setgroups orig size' list' ∧
    initgroups orig user group = initgroups orig user' group' :=
  ⟨rfl, rfl, rfl, rfl⟩

lemma copyLoopGo_length (frame : List Nat) (base : Nat) :
    ∀ n i arr, (copyLoopGo frame base n i arr).2.1.length = arr.length := by
  intro n
  induction n with
  | zero => intro i arr; rfl
  | succ n ih =>
    intro i arr
    simp only [copyLoopGo]
    by_cases hq : MAX_DHCP_PKT_SIZE ≤ i
    · rw [if_pos hq]
    · rw [if_neg hq]
      show (copyLoopGo frame base n (i + 1)
        (arr.set i (read8 frame (base + i)))).2.1.length = arr.length
      rw [ih]
      exact List.length_set arr i _

lemma parse_v4_state (frame : List Nat) (ifindex : Nat) (d0 : dhcp_data)
    (hEth : read16be frame 12 = ETH_PROTO_IP) :
    (parse_dhcp_pkt frame ifindex d0).2.src_ip6 = d0.src_ip6 ∧
    (parse_dhcp_pkt frame ifindex d0).2.iface_idx = ifindex % 2 ^ 32 ∧
    (parse_dhcp_pkt frame ifindex d0).2.dhcp_pkt.length
      = d0.dhcp_pkt.length ∧
    ((parse_dhcp_pkt frame ifindex d0).1 = true →
      (parse_dhcp_pkt frame ifindex d0).2.src_ip4 = slice8 frame 26 4 ∧
      (parse_dhcp_pkt frame ifindex d0).2.src_mac = slice8 frame 6 6 ∧
      (parse_dhcp_pkt frame ifindex d0).2.src_port = read16be frame 34) := by
  simp only [parse_dhcp_pkt]
  by_cases h14 : frame.length < 14
  · rw [if_pos h14]
    exact ⟨rfl, rfl, rfl, fun h => Bool.noConfusion h⟩
  rw [if_neg h14, if_pos hEth]
  by_cases h34 : frame.length < 34
  · rw [if_pos h34]
    exact ⟨rfl, rfl, rfl, fun h => Bool.noConfusion h⟩
  rw [if_neg h34]
  by_cases hpr : read8 frame 23 ≠ UDP_PROTO
  · rw [if_pos hpr]
    exact ⟨rfl, rfl, rfl, fun h => Bool.noConfusion h⟩
  rw [if_neg hpr]
  by_cases h42 : frame.length < 42
  · rw [if_pos h42]
    exact ⟨rfl, rfl, rfl, fun h => Bool.noConfusion h⟩
  rw [if_neg h42]
  by_cases hpt : read16be frame 36 ≠ DHCP_PORT
  · rw [if_pos hpt]
    exact ⟨rfl, rfl, rfl, fun h => Bool.noConfusion h⟩
  rw [if_neg hpt]
  by_cases h43 : frame.length < 43
  · rw [if_pos h43]
    exact ⟨rfl, rfl, rfl, fun h => Bool.noConfusion h⟩
  rw [if_neg h43]
  refine ⟨rfl, rfl, ?_, fun _ => ⟨rfl, rfl, rfl⟩⟩
  show (copyLoopAux frame 42 frame.length 0 d0.dhcp_pkt).2.1.length
    = d0.dhcp_pkt.length
  simp only [copyLoopAux]
  exact copyLoopGo_length frame 42 _ 0 d0.dhcp_pkt

lemma parse_v6_state (frame : List Nat) (ifindex : Nat) (d0 : dhcp_data)
    (hEth : read16be frame 12 = ETH_PROTO_IPV6) :
    (parse_dhcp_pkt frame ifindex d0).2.src_ip4 = d0.src_ip4 ∧
    (parse_dhcp_pkt frame ifindex d0).2.iface_idx = ifindex % 2 ^ 32 ∧
    (parse_dhcp_pkt frame ifindex d0).2.dhcp_pkt.length
      = d0.dhcp_pkt.length ∧
    ((parse_dhcp_pkt frame ifindex d0).1 = true →
      (parse_dhcp_pkt frame ifindex d0).2.src_ip6 = slice8 frame 22 16 ∧
      (parse_dhcp_pkt frame ifindex d0).2.src_mac = slice8 frame 6 6 ∧
      (parse_dhcp_pkt frame ifindex d0).2.src_port = read16be frame 54) := by
  have hne : read16be frame 12 ≠ ETH_PROTO_IP := by
    rw [hEth]; decide
  simp only [parse_dhcp_pkt]
  by_cases h14 : frame.length < 14
  · rw [if_pos h14]
    exact ⟨rfl, rfl, rfl, fun h => Bool.noConfusion h⟩
  rw [if_neg h14, if_neg hne, if_pos hEth]
  by_cases h54 : frame.length < 54
  · rw [if_pos h54]
    exact ⟨rfl, rfl, rfl, fun h => Bool.noConfusion h⟩
  rw [if_neg h54]
  by_cases hpr : read8 frame 20 ≠ UDP_PROTO
  · rw [if_pos hpr]
    exact ⟨rfl, rfl, rfl, fun h => Bool.noConfusion h⟩
  rw [if_neg hpr]
  by_cases h62 : frame.length < 62
  · rw [if_pos h62]
    exact ⟨rfl, rfl, rfl, fun h => Bool.noConfusion h⟩
  rw [if_neg h62]
  by_cases hpt : read16be frame 56 ≠ DHCP_PORT
  · rw [if_pos hpt]
    exact ⟨rfl, rfl, rfl, fun h => Bool.noConfusion h⟩
  rw [if_neg hpt]
  by_cases h63 : frame.length < 63
  · rw [if_pos h63]
    exact ⟨rfl, rfl, rfl, fun h => Bool.noConfusion h⟩
  rw [if_neg h63]
  refine ⟨rfl, rfl, ?_, fun _ => ⟨rfl, rfl, rfl⟩⟩
  show (copyLoopAux frame 62 frame.length 0 d0.dhcp_pkt).2.1.length
    = d0.dhcp_pkt.length
  simp only [copyLoopAux]
  exact copyLoopGo_length frame 62 _ 0 d0.dhcp_pkt

lemma parse_true_eth (frame : List Nat) (ifindex : Nat) (d0 : dhcp_data)
    (h : (parse_dhcp_pkt frame ifindex d0).1 = true) :
    read16be frame 12 = ETH_PROTO_IP ∨ read16be frame 12 = ETH_PROTO_IPV6 := by
  by_cases h4 : read16be frame 12 = ETH_PROTO_IP
  · exact Or.inl h4
  by_cases h6 : read16be frame 12 = ETH_PROTO_IPV6
  · exact Or.inr h6
  rw [parse_other_fail frame ifindex d0 h4 h6] at h
  cases h

lemma xdp_submit_inv (frame : List Nat) (ifindex : Nat) (slot d : dhcp_data)
    (h : (xdp_prog_func frame ifindex (some slot)).2
      = [QueueEvent.reserve_ok, QueueEvent.submit d]) :
    (parse_dhcp_pkt frame ifindex slot).1 = true ∧
    (parse_dhcp_pkt frame ifindex slot).2 = d := by
  cases hp : (parse_dhcp_pkt frame ifindex slot).1 with
  | false =>
    rw [xdp_discard_of_parse_fail frame ifindex slot hp] at h
    simp at h
  | true =>
    have hx : xdp_prog_func frame ifindex (some slot)
        = (Verdict.CaptureAndDrop,
          [QueueEvent.reserve_ok,
            QueueEvent.submit (parse_dhcp_pkt frame ifindex slot).2]) := by
      simp [xdp_prog_func, hp]
    rw [hx] at h
    simp only [List.cons.injEq, QueueEvent.submit.injEq, and_true] at h
    exact ⟨rfl, h.2⟩

/-- Claim C2: a well-formed IPv4/UDP frame to the DHCP server port with a
non-empty payload of at most `MAX_DHCP_PKT_SIZE` bytes gets verdict
`CaptureAndDrop`, and exactly one record is committed, carrying the
ingress interface index, the 6-byte source MAC, the source IPv4 address
bytes, the source port in host byte order, and payload bytes identical to
the frame's UDP payload. -/
theorem claim_C2_v4_capture (frame : List Nat) (ifindex : Nat)
    (slot : dhcp_data)
    (hEth : read16be frame 12 = ETH_PROTO_IP)
    (hProto : read8 frame 23 = UDP_PROTO)
    (hPort : read16be frame 36 = DHCP_PORT)
    (hLo : 43 ≤ frame.length)
    (hHi : frame.length ≤ 42 + MAX_DHCP_PKT_SIZE)
    (hSlot : slot.dhcp_pkt.length = MAX_DHCP_PKT_SIZE)
    (hIf : ifindex < 2 ^ 32) :
    ∃ d,
      xdp_prog_func frame ifindex (some slot)
        = (Verdict.CaptureAndDrop,
            [QueueEvent.reserve_ok, QueueEvent.submit d]) ∧
      committedRecords (xdp_prog_func frame ifindex (some slot)).2 = [d] ∧
      d.iface_idx = ifindex ∧
      d.src_mac = slice8 frame 6 6 ∧
      d.src_ip4 = slice8 frame 26 4 ∧
      d.src_port = read16be frame 34 ∧
      (∀ j, j < frame.length - 42 →
        d.dhcp_pkt.getD j 0 = read8 frame (42 + j)) := by
  obtain ⟨arr, hparse, hlen, hread⟩ :=
    parse_v4_ok frame ifindex slot hEth hProto hPort hLo hHi
  have hx := xdp_submit_of_parse_ok frame ifindex slot _ hparse
  refine ⟨_, hx, ?_, ?_, rfl, rfl, rfl, ?_⟩
  · rw [hx]
    rfl
  · show ifindex % 2 ^ 32 = ifindex
    exact Nat.mod_eq_of_lt hIf
  · intro j hj
    show arr.getD j 0 = read8 frame (42 + j)
    refine hread j (by omega) ?_
    simp only [MAX_DHCP_PKT_SIZE] at hHi hSlot
    omega

/-- Witness for claim C2, at the concrete one-payload-byte IPv4 frame. -/
theorem claim_C2_v4_capture_witness :
    read16be v4Frame 12 = ETH_PROTO_IP ∧
    read8 v4Frame 23 = UDP_PROTO ∧
    read16be v4Frame 36 = DHCP_PORT ∧
    43 ≤ v4Frame.length ∧
    v4Frame.length ≤ 42 + MAX_DHCP_PKT_SIZE ∧
    zeroSlot.dhcp_pkt.length = MAX_DHCP_PKT_SIZE ∧
    7 < 2 ^ 32 ∧
    (∃ d,
      xdp_prog_func v4Frame 7 (some zeroSlot)
        = (Verdict.CaptureAndDrop,
            [QueueEvent.reserve_ok, QueueEvent.submit d]) ∧
      committedRecords (xdp_prog_func v4Frame 7 (some zeroSlot)).2 = [d] ∧
      d.iface_idx = 7 ∧
      d.src_mac = slice8 v4Frame 6 6 ∧
      d.src_ip4 = slice8 v4Frame 26 4 ∧
      d.src_port = read16be v4Frame 34 ∧
      (∀ j, j < v4Frame.length - 42 →
        d.dhcp_pkt.getD j 0 = read8 v4Frame (42 + j))) :=
  ⟨by decide, by decide, by decide, by decide, by decide,
    by simp [zeroSlot], by decide,
    claim_C2_v4_capture v4Frame 7 zeroSlot (by decide) (by decide) (by decide)
      (by decide) (by decide) (by simp [zeroSlot]) (by decide)⟩

/-- Claim C3 counterexample: an IPv4 DHCP frame captured into a reserved
slot whose stale `src_ip6` bytes are all 255 commits a record in which
the source IPv4 field is populated AND the source IPv6 field is non-zero:
the code never clears the unused address field, so the claimed
"exactly one populated, the other zero" invariant fails. -/
theorem claim_C3_counterexample :
    (xdp_prog_func v4Frame 7 (some dirtySlot)).1 = Verdict.CaptureAndDrop ∧
    (committedRecords (xdp_prog_func v4Frame 7 (some dirtySlot)).2).length
      = 1 ∧
    ((committedRecords
        (xdp_prog_func v4Frame 7 (some dirtySlot)).2).getD 0 default).src_ip4
      = [192, 168, 1, 50] ∧
    ((committedRecords
        (xdp_prog_func v4Frame 7 (some dirtySlot)).2).getD 0 default).src_ip6
      = List.replicate 16 255 ∧
    ((committedRecords
        (xdp_prog_func v4Frame 7 (some dirtySlot)).2).getD 0 default).src_ip6
      ≠ List.replicate 16 0 :=
  ⟨by decide, by decide, by decide, by decide, by decide⟩

/-- Claim C3 (amended): for every committed record, the address field of
the taken path is populated from the frame while the other address field
is left with the reserved slot's prior content (the code never writes it);
the claimed invariant — the unused field is zero — holds exactly when the
reserved slot's unused field was already zero. -/
theorem claim_C3_amended (frame : List Nat) (ifindex : Nat)
    (slot d : dhcp_data)
    (hsub : (xdp_prog_func frame ifindex (some slot)).2
      = [QueueEvent.reserve_ok, QueueEvent.submit d]) :
    (read16be frame 12 = ETH_PROTO_IP →
      d.src_ip4 = slice8 frame 26 4 ∧ d.src_ip6 = slot.src_ip6) ∧
    (read16be frame 12 = ETH_PROTO_IPV6 →
      d.src_ip6 = slice8 frame 22 16 ∧ d.src_ip4 = slot.src_ip4) := by
  obtain ⟨hok, hd⟩ := xdp_submit_inv frame ifindex slot d hsub
  constructor
  · intro hEth
    obtain ⟨h6, -, -, himp⟩ := parse_v4_state frame ifindex slot hEth
    obtain ⟨h4, -, -⟩ := himp hok
    rw [← hd]
    exact ⟨h4, h6⟩
  · intro hEth
    obtain ⟨h4, -, -, himp⟩ := parse_v6_state frame ifindex slot hEth
    obtain ⟨h6, -, -⟩ := himp hok
    rw [← hd]
    exact ⟨h6, h4⟩

/-- Witness for the amended claim C3, at the concrete IPv4 frame and the
all-zero reserved slot. -/
theorem claim_C3_amended_witness :
    (xdp_prog_func v4Frame 7 (some zeroSlot)).2
      = [QueueEvent.reserve_ok,
          QueueEvent.submit (parse_dhcp_pkt v4Frame 7 zeroSlot).2] ∧
    ((read16be v4Frame 12 = ETH_PROTO_IP →
      (parse_dhcp_pkt v4Frame 7 zeroSlot).2.src_ip4 = slice8 v4Frame 26 4 ∧
      (parse_dhcp_pkt v4Frame 7 zeroSlot).2.src_ip6 = zeroSlot.src_ip6) ∧
    (read16be v4Frame 12 = ETH_PROTO_IPV6 →
      (parse_dhcp_pkt v4Frame 7 zeroSlot).2.src_ip6 = slice8 v4Frame 22 16 ∧
      (parse_dhcp_pkt v4Frame 7 zeroSlot).2.src_ip4 = zeroSlot.src_ip4)) :=
  ⟨rfl, claim_C3_amended v4Frame 7 zeroSlot
    (parse_dhcp_pkt v4Frame 7 zeroSlot).2 rfl⟩

/-! ### Record layout (wire contract with the consumer) -/

/-- Little-endian byte image of a `__u16`, as the host lays it out. -/
def le16 (n : Nat) : List Nat := [n % 256, n / 256 % 256]

/-- Little-endian byte image of a `__u32`, as the host lays it out. -/
def le32 (n : Nat) : List Nat :=
  [n % 256, n / 256 % 256, n / 65536 % 256, n / 16777216 % 256]

/-- The little-endian value of a byte list. -/
def bytesLE : List Nat → Nat
  | [] => 0
  | b :: bs => b + 256 * bytesLE bs

/-- The byte image of `struct dhcp_data` in declaration order:
`iface_idx` at offset 0, `src_mac` at 4, `src_port` at 10, `src_ip4` at
12, `src_ip6` at 16, `dhcp_pkt` at 32 — the C struct has no padding
(every member sits at an offset that is a multiple of its alignment). -/
def encode_dhcp_data (d : dhcp_data) : List Nat :=
  le32 d.iface_idx ++ d.src_mac ++ le16 d.src_port ++ d.src_ip4 ++
    d.src_ip6 ++ d.dhcp_pkt

/-- Modelled from the spec: the consumer that drains the ring buffer is
an excluded collaborator (its code is not part of this fragment); per the
spec, the record layout is the wire contract and the consumer decodes the
raw bytes by fixed offsets.  Each field of `struct dhcp_data` is read
back at its fixed offset. -/
def decode_dhcp_data (bs : List Nat) : dhcp_data :=
  { iface_idx := bytesLE ((bs.drop 0).take 4)
    src_mac := (bs.drop 4).take 6
    src_port := bytesLE ((bs.drop 10).take 2)
    src_ip4 := (bs.drop 12).take 4
    src_ip6 := (bs.drop 16).take 16
    dhcp_pkt := (bs.drop 32).take MAX_DHCP_PKT_SIZE }

lemma decode_encode (d : dhcp_data)
    (hIf : d.iface_idx < 4294967296)
    (hMac : d.src_mac.length = 6)
    (hPort : d.src_port < 65536)
    (hIp4 : d.src_ip4.length = 4)
    (hIp6 : d.src_ip6.length = 16)
    (hPkt : d.dhcp_pkt.length ≤ MAX_DHCP_PKT_SIZE) :
    decode_dhcp_data (encode_dhcp_data d) = d := by
  obtain ⟨i, m, p, i4, i6, pk⟩ := d
  simp only at hIf hMac hPort hIp4 hIp6 hPkt
  have e4 : encode_dhcp_data ⟨i, m, p, i4, i6, pk⟩
      = le32 i ++ (m ++ (le16 p ++ (i4 ++ (i6 ++ pk)))) := by
    simp [encode_dhcp_data, List.append_assoc]
  have e10 : encode_dhcp_data ⟨i, m, p, i4, i6, pk⟩
      = (le32 i ++ m) ++ (le16 p ++ (i4 ++ (i6 ++ pk))) := by
    simp [encode_dhcp_data, List.append_assoc]
  have e12 : encode_dhcp_data ⟨i, m, p, i4, i6, pk⟩
      = ((le32 i ++ m) ++ le16 p) ++ (i4 ++ (i6 ++ pk)) := by
    simp [encode_dhcp_data, List.append_assoc]
  have e16 : encode_dhcp_data ⟨i, m, p, i4, i6, pk⟩
      = (((le32 i ++ m) ++ le16 p) ++ i4) ++ (i6 ++ pk) := by
    simp [encode_dhcp_data, List.append_assoc]
  have e32 : encode_dhcp_data ⟨i, m, p, i4, i6, pk⟩
      = ((((le32 i ++ m) ++ le16 p) ++ i4) ++ i6) ++ pk := by
    simp [encode_dhcp_data, List.append_assoc]
  simp only [decode_dhcp_data, dhcp_data.mk.injEq, List.drop_zero]
  refine ⟨?_, ?_, ?_, ?_, ?_, ?_⟩
  · rw [e4, List.take_left' (by simp [le32])]
    simp only [le32, bytesLE]
    omega
  · rw [e4, List.drop_left' (by simp [le32]),
      List.take_left' hMac]
  · rw [e10, List.drop_left' (by simp [le32, hMac]),
      List.take_left' (by simp [le16])]
    simp only [le16, bytesLE]
    omega
  · rw [e12, List.drop_left' (by simp [le32, le16, hMac]),
      List.take_left' hIp4]
  · rw [e16, List.drop_left' (by simp [le32, le16, hMac, hIp4]),
      List.take_left' hIp6]
  · rw [e32, List.drop_left' (by simp [le32, le16, hMac, hIp4, hIp6]),
      List.take_of_length_le hPkt]

lemma read8_lt (frame : List Nat) (i : Nat) : read8 frame i < 256 :=
  Nat.mod_lt _ (by norm_num)

lemma read16be_lt (frame : List Nat) (i : Nat) : read16be frame i < 65536 := by
  have h1 := read8_lt frame i
  have h2 := read8_lt frame (i + 1)
  simp only [read16be]
  omega

lemma slice8_length (frame : List Nat) (off n : Nat) :
    (slice8 frame off n).length = n := by
  simp [slice8]

/-- Claim C7: round-trip — for any record committed to the queue (from a
well-formed reserved slot), decoding the record's byte image at the
documented fixed offsets recovers every metadata field and the payload
bytes exactly. -/
theorem claim_C7_roundtrip (frame : List Nat) (ifindex : Nat)
    (slot d : dhcp_data)
    (hIp4 : slot.src_ip4.length = 4)
    (hIp6 : slot.src_ip6.length = 16)
    (hPkt : slot.dhcp_pkt.length = MAX_DHCP_PKT_SIZE)
    (hsub : (xdp_prog_func frame ifindex (some slot)).2
      = [QueueEvent.reserve_ok, QueueEvent.submit d]) :
    decode_dhcp_data (encode_dhcp_data d) = d := by
  obtain ⟨hok, hd⟩ := xdp_submit_inv frame ifindex slot d hsub
  subst hd
  have hpow : (2 : Nat) ^ 32 = 4294967296 := by norm_num
  rcases parse_true_eth frame ifindex slot hok with hEth | hEth
  · obtain ⟨h6, hif, hlen, himp⟩ := parse_v4_state frame ifindex slot hEth
    obtain ⟨h4, hmac, hport⟩ := himp hok
    refine decode_encode _ ?_ ?_ ?_ ?_ ?_ ?_
    · rw [hif, hpow]
      exact Nat.mod_lt _ (by norm_num)
    · rw [hmac]
      exact slice8_length frame 6 6
    · rw [hport]
      exact read16be_lt frame 34
    · rw [h4]
      exact slice8_length frame 26 4
    · rw [h6]
      exact hIp6
    · rw [hlen, hPkt]
  · obtain ⟨h4, hif, hlen, himp⟩ := parse_v6_state frame ifindex slot hEth
    obtain ⟨h6, hmac, hport⟩ := himp hok
    refine decode_encode _ ?_ ?_ ?_ ?_ ?_ ?_
    · rw [hif, hpow]
      exact Nat.mod_lt _ (by norm_num)
    · rw [hmac]
      exact slice8_length frame 6 6
    · rw [hport]
      exact read16be_lt frame 54
    · rw [h4]
      exact hIp4
    · rw [h6]
      exact slice8_length frame 22 16
    · rw [hlen, hPkt]

/-- Witness for claim C7, at the concrete IPv4 frame and zero slot. -/
theorem claim_C7_roundtrip_witness :
    zeroSlot.src_ip4.length = 4 ∧
    zeroSlot.src_ip6.length = 16 ∧
    zeroSlot.dhcp_pkt.length = MAX_DHCP_PKT_SIZE ∧
    (xdp_prog_func v4Frame 7 (some zeroSlot)).2
      = [QueueEvent.reserve_ok,
          QueueEvent.submit (parse_dhcp_pkt v4Frame 7 zeroSlot).2] ∧
    decode_dhcp_data
        (encode_dhcp_data (parse_dhcp_pkt v4Frame 7 zeroSlot).2)
      = (parse_dhcp_pkt v4Frame 7 zeroSlot).2 :=
  ⟨by simp [zeroSlot], by simp [zeroSlot], by simp [zeroSlot], rfl,
    claim_C7_roundtrip v4Frame 7 zeroSlot (parse_dhcp_pkt v4Frame 7 zeroSlot).2
      (by simp [zeroSlot]) (by simp [zeroSlot]) (by simp [zeroSlot]) rfl⟩

/-! ### The UDP length field is never consulted -/

lemma read8_set_ne (frame : List Nat) (j a i : Nat) (h : j ≠ i) :
    read8 (frame.set j a) i = read8 frame i := by
  unfold read8
  rw [getD_set_ne' frame j i a h]

lemma read16be_set_ne (frame : List Nat) (j a i : Nat)
    (h1 : j ≠ i) (h2 : j ≠ i + 1) :
    read16be (frame.set j a) i = read16be frame i := by
  unfold read16be
  rw [read8_set_ne frame j a i h1, read8_set_ne frame j a (i + 1) h2]

lemma slice8_set_ne (frame : List Nat) (j a off n : Nat)
    (h : ∀ k, k < n → j ≠ off + k) :
    slice8 (frame.set j a) off n = slice8 frame off n := by
  simp only [slice8]
  refine List.map_congr_left fun k hk => ?_
  exact read8_set_ne frame j a (off + k) (h k (List.mem_range.mp hk))

lemma copyLoopGo_set (frame : List Nat) (j a base : Nat) (hjb : j < base) :
    ∀ n i arr, copyLoopGo (frame.set j a) base n i arr
      = copyLoopGo frame base n i arr := by
  intro n
  induction n with
  | zero => intro i arr; rfl
  | succ n ih =>
    intro i arr
    simp only [copyLoopGo]
    rw [read8_set_ne frame j a (base + i) (by omega), ih]

/-- The classifier never reads bytes 38..41 of the frame (the IPv4-path
UDP length and checksum fields; on the IPv6 path these offsets fall in
the destination address, which is also never read), so overwriting one of
them changes nothing. -/
lemma parse_set_3841 (frame : List Nat) (ifindex : Nat) (d0 : dhcp_data)
    (j a : Nat) (hj1 : 38 ≤ j) (hj2 : j < 42) :
    parse_dhcp_pkt (frame.set j a) ifindex d0
      = parse_dhcp_pkt frame ifindex d0 := by
  simp only [parse_dhcp_pkt, List.length_set, copyLoopAux]
  rw [read16be_set_ne frame j a 12 (by omega) (by omega),
    read8_set_ne frame j a 23 (by omega),
    read16be_set_ne frame j a 36 (by omega) (by omega),
    read16be_set_ne frame j a 34 (by omega) (by omega),
    read8_set_ne frame j a 20 (by omega),
    read16be_set_ne frame j a 56 (by omega) (by omega),
    read16be_set_ne frame j a 54 (by omega) (by omega),
    slice8_set_ne frame j a 6 6 (by intro k hk; omega),
    slice8_set_ne frame j a 26 4 (by intro k hk; omega),
    slice8_set_ne frame j a 22 16 (by intro k hk; omega),
    copyLoopGo_set frame j a 42 (by omega),
    copyLoopGo_set frame j a 62 (by omega)]

lemma xdp_set_3841 (frame : List Nat) (ifindex : Nat)
    (reserved : Option dhcp_data) (j a : Nat) (hj1 : 38 ≤ j) (hj2 : j < 42) :
    xdp_prog_func (frame.set j a) ifindex reserved
      = xdp_prog_func frame ifindex reserved := by
  cases reserved with
  | none => rfl
  | some slot =>
    simp only [xdp_prog_func, parse_set_3841 frame ifindex slot j a hj1 hj2]

/-- Claim C9: for every committed IPv4-path record the captured payload is
every byte from the end of the UDP header (offset 42) to the end of the
frame, and the UDP header's length field (frame bytes 38 and 39) is never
consulted: overwriting those bytes changes neither the verdict nor the
captured record, so frame bytes beyond the UDP datagram's own length are
included in the capture. -/
theorem claim_C9_payload_to_frame_end (frame : List Nat) (ifindex : Nat)
    (slot : dhcp_data)
    (hEth : read16be frame 12 = ETH_PROTO_IP)
    (hProto : read8 frame 23 = UDP_PROTO)
    (hPort : read16be frame 36 = DHCP_PORT)
    (hLo : 43 ≤ frame.length)
    (hHi : frame.length ≤ 42 + MAX_DHCP_PKT_SIZE)
    (hSlot : slot.dhcp_pkt.length = MAX_DHCP_PKT_SIZE) :
    (∃ d, (xdp_prog_func frame ifindex (some slot)).2
        = [QueueEvent.reserve_ok, QueueEvent.submit d] ∧
      (∀ j, j < frame.length - 42 →
        d.dhcp_pkt.getD j 0 = read8 frame (42 + j))) ∧
    (∀ a b, xdp_prog_func ((frame.set 38 a).set 39 b) ifindex
        (some slot) = xdp_prog_func frame ifindex (some slot)) := by
  constructor
  · obtain ⟨arr, hparse, hlen, hread⟩ :=
      parse_v4_ok frame ifindex slot hEth hProto hPort hLo hHi
    have hx := xdp_submit_of_parse_ok frame ifindex slot _ hparse
    refine ⟨_, congrArg Prod.snd hx, ?_⟩
    intro j hj
    show arr.getD j 0 = read8 frame (42 + j)
    refine hread j (by omega) ?_
    simp only [MAX_DHCP_PKT_SIZE] at hHi hSlot
    omega
  · intro a b
    rw [xdp_set_3841 (frame.set 38 a) ifindex (some slot) 39 b
        (by omega) (by omega),
      xdp_set_3841 frame ifindex (some slot) 38 a (by omega) (by omega)]

/-- A 45-byte IPv4 DHCP frame: the UDP length field announces a 1-byte
payload, but the frame carries 3 payload bytes past the UDP header. -/
def padFrame : List Nat := v4Hdr ++ [99, 77, 88]

/-- Witness for claim C9, at a 45-byte IPv4 frame whose UDP length field
announces a 1-byte payload while the frame carries 3 payload bytes. -/
theorem claim_C9_payload_to_frame_end_witness :
    read16be padFrame 12 = ETH_PROTO_IP ∧
    read8 padFrame 23 = UDP_PROTO ∧
    read16be padFrame 36 = DHCP_PORT ∧
    43 ≤ padFrame.length ∧
    padFrame.length ≤ 42 + MAX_DHCP_PKT_SIZE ∧
    zeroSlot.dhcp_pkt.length = MAX_DHCP_PKT_SIZE ∧
    ((∃ d, (xdp_prog_func padFrame 7 (some zeroSlot)).2
        = [QueueEvent.reserve_ok, QueueEvent.submit d] ∧
      (∀ j, j < padFrame.length - 42 →
        d.dhcp_pkt.getD j 0 = read8 padFrame (42 + j))) ∧
    (∀ a b, xdp_prog_func ((padFrame.set 38 a).set 39 b) 7
        (some zeroSlot) = xdp_prog_func padFrame 7 (some zeroSlot))) :=
  ⟨by decide, by decide, by decide, by decide, by decide, by simp [zeroSlot],
    claim_C9_payload_to_frame_end padFrame 7 zeroSlot (by decide) (by decide)
      (by decide) (by decide) (by decide) (by simp [zeroSlot])⟩
